import Mathlib

/-!
Verification development for the `time-sync` repository.

The repository ships two relevant pieces of source:

* `packages/time-sync/src/readonlyDate2.ts` — the `ReadonlyDate` class, a
  `Date` subclass whose fifteen `set*` methods are shadowed by no-ops that
  simply return the wrapped epoch-millisecond timestamp, plus a `toDate`
  conversion and a dispatching constructor.  These are embedded directly
  below (`ReadonlyDate`, `MutCall`, `DateHeap`, `readonlyDateCtor`).

* `packages/time-sync/src/TimeSync.test.ts` — the behavioural test suite of
  the subscription/interval-coalescing engine.  The engine implementation
  file itself (`TimeSync.ts`) is not part of the sources available here, so
  the engine is modelled from the specification (its data model in §3, the
  coalescer algorithm in §4.2, the notifier in §4.3 and the external
  interface in §6), with the exact validation error messages taken from the
  test file, which is available.

Conventions of the embedding: instants and durations are natural numbers of
milliseconds; callback functions are identified by a `Nat` identity (the
engine deduplicates fan-out by callback identity, so only identity matters);
callback invocations are recorded in an event log carried by the state.
-/

/-- Modelled from the spec: a JavaScript number as it can be passed to the
engine's interval parameters.  The spec's validation must distinguish
`NaN`, the two infinities, integers and finite non-integers
(§4.1, §7, and the invalid sample set of the test file).  A finite
non-integral number is carried by its JavaScript string rendering, which is
all the engine ever does with such a value (it is invalid, and only appears
inside the error message). -/
inductive JsNum
  | nan
  | negInf
  | posInf
  | intVal (i : Int)
  | nonIntVal (render : String)
deriving DecidableEq

/-- The string a JavaScript template literal produces for the number,
as it appears inside the thrown error messages of the test file. -/
def jsNumToString : JsNum → String
  | JsNum.nan => "NaN"
  | JsNum.negInf => "-Infinity"
  | JsNum.posInf => "Infinity"
  | JsNum.intVal i => toString i
  | JsNum.nonIntVal r => r

/-- Modelled from the spec: "a positive integer" (§4.1).  `NaN`, the
infinities, zero, negatives and non-integers are all excluded. -/
def isPositiveInteger : JsNum → Bool
  | JsNum.intVal i => decide (0 < i)
  | _ => false

/-- The interval a valid JavaScript number denotes: the idle sentinel
(positive infinity, "never periodically fire") becomes `none`, a positive
integer becomes `some` of its magnitude. -/
def toIntervalOf : JsNum → Option Nat
  | JsNum.intVal i => some i.toNat
  | _ => none

/-- Modelled from the spec: `InvalidIntervalError`, the single error kind of
the engine's contract (§7).  Only the message is observable. -/
structure InvalidIntervalError where
  message : String
deriving DecidableEq

/-- Modelled from the spec: one Registration — "a caller-supplied callback, a
requested interval (a positive integer count of time units, or a sentinel
idle value meaning never periodically fire), and a unique registration
identity distinct from the callback's identity" (§3).  The interval is
`none` for the idle sentinel. -/
structure Registration where
  rid : Nat
  cb : Nat
  interval : Option Nat
deriving DecidableEq

/-- Modelled from the spec: the full engine state — configuration fixed at
construction (`minMs`, `autoNotify`), the virtual clock `now`, the Notifier's
snapshot and pending-update flag, the Subscription Registry (`regs`,
`nextRegId`), the Coalescer's `lastTick` baseline and single owned timer
handle (an absolute deadline), and an event log of callback invocations
`(callback identity, snapshot value)` in invocation order. -/
structure TimeSync where
  minMs : Nat
  autoNotify : Bool
  now : Nat
  snapshot : Nat
  regs : List Registration
  nextRegId : Nat
  lastTick : Nat
  timer : Option Nat
  log : List (Nat × Nat)
  pending : Bool
deriving DecidableEq

/-- Modelled from the spec: the Effective Interval — "the minimum requested
interval among all live Registrations, clamped to a configured floor", `none`
("idle"/undefined, no periodic timer) when there is no live non-idle
registration (§3, §4.2 step 1: `max(minimumRefreshIntervalMs, min over live
requested intervals)`). -/
def effMinOf (minMs : Nat) (regs : List Registration) : Option Nat :=
  match regs.filterMap (fun r => r.interval) with
  | [] => none
  | x :: xs => some (max minMs (xs.foldr min x))

/-- The effective interval of a state. -/
def TimeSync.effMin (s : TimeSync) : Option Nat :=
  effMinOf s.minMs s.regs

/-- Modelled from the spec: construction — "initialDate: Instant (default:
current time at construction)" (§6); no timer runs, the last-tick baseline is
the construction instant. -/
def TimeSync.init (minMs : Nat) (auto : Bool) (d0 : Nat) (t0 : Nat) : TimeSync :=
  { minMs := minMs
    autoNotify := auto
    now := t0
    snapshot := d0
    regs := []
    nextRegId := 0
    lastTick := t0
    timer := none
    log := []
    pending := false }

/-- `getStateSnapshot()` — "returns the current Snapshot; never triggers a
refresh; safe to call at any time without side effects" (§4.3). -/
def TimeSync.getStateSnapshot (s : TimeSync) : Nat :=
  s.snapshot

/-- Modelled from the spec: `notifyAll` fan-out — "invokes every live
registration's callback exactly once with the current snapshot, even if
several registrations share the same callback reference" (§4.1): collapse the
live callbacks by identity, pair each with the current snapshot. -/
def notifyRound (s : TimeSync) : List (Nat × Nat) :=
  ((s.regs.map (fun r => r.cb)).dedup).map (fun c => (c, s.snapshot))

/-- Modelled from the spec: one timer firing at instant `d` — "refresh
snapshot, then notify" and re-arm "using the (possibly changed) minInterval
for the next period" (§4.2 step 6, §4.3).  In auto-notify mode refresh and
fan-out are one logical step; in manual mode the refresh only raises the
pending-update flag. -/
def fireAt (d : Nat) (s : TimeSync) : TimeSync :=
  { s with
    snapshot := d
    lastTick := d
    pending := !s.autoNotify
    log := if s.autoNotify
      then s.log ++ ((s.regs.map (fun r => r.cb)).dedup).map (fun c => (c, d))
      else s.log
    timer := (effMinOf s.minMs s.regs).map (fun m => d + m) }

/-- Modelled from the spec: `flush()` — "forces an immediate fan-out of the
current Snapshot to all live registrations regardless of timer state or
elapsed time; does not reschedule the timer" (§4.3). -/
def flushOp (s : TimeSync) : TimeSync :=
  { s with log := s.log ++ notifyRound s, pending := false }

/-- Modelled from the spec: recomputation after a registration-set change
that is not the zero-to-one transition (§4.2 steps 1, 2, 4, 5 and the design
note of §9): if the effective interval is idle, cancel the timer; otherwise
compute the new deadline from the last tick baseline — if it has already
passed, tick immediately (catch-up) and re-arm from now, else arm the
one-shot remainder `lastTick + minInterval`. -/
def recompute (s : TimeSync) : TimeSync :=
  match effMinOf s.minMs s.regs with
  | none => { s with timer := none }
  | some m =>
    if s.lastTick + m ≤ s.now then fireAt s.now s else { s with timer := some (s.lastTick + m) }

/-- Modelled from the spec: `subscribe` after validation (§4.2).  A fresh
registration identity is handed out; on the zero-to-one transition the engine
forces "an immediate (synchronous, non-notifying) snapshot refresh so the
very first subscriber observes a fresh clock, then arms a timer for
minInterval" (step 3) — unless the sole registration is idle, in which case
no timer runs (step 2); otherwise the generic recomputation applies. -/
def subscribeState (s : TimeSync) (cb : Nat) (ivl : Option Nat) : TimeSync :=
  let s1 : TimeSync :=
    { s with
      regs := s.regs ++ [{ rid := s.nextRegId, cb := cb, interval := ivl }]
      nextRegId := s.nextRegId + 1 }
  if s.regs.isEmpty then
    match effMinOf s1.minMs s1.regs with
    | none => { s1 with timer := none }
    | some m =>
        { s1 with
          snapshot := s1.now
          pending := s1.pending || !s1.autoNotify
          lastTick := s1.now
          timer := some (s1.now + m) }
  else
    recompute s1

/-- The public face of a valid subscription: the fresh registration identity
(the unsubscribe handle) together with the new engine state. -/
def subscribeValid (s : TimeSync) (cb : Nat) (ivl : Option Nat) : Nat × TimeSync :=
  (s.nextRegId, subscribeState s cb ivl)

/-- Modelled from the spec: `remove(registrationId)` / the unsubscribe
handle — "idempotent removal; removing an unknown id is a no-op" (§4.1),
followed by the Coalescer's recomputation (§4.2 step 5). -/
def unsubscribeValid (s : TimeSync) (rid : Nat) : TimeSync :=
  recompute { s with regs := s.regs.filter (fun r => r.rid != rid) }

/-- Fuel-bounded timer loop: fire every deadline that falls at or before
`target`.  Deadlines advance by at least the (positive) effective interval
per firing, so `delta + 1` units of fuel are always sufficient for an
advance of `delta` milliseconds (proved below). -/
def runFuel : Nat → Nat → TimeSync → TimeSync
  | 0, _, s => s
  | fuel + 1, target, s =>
    match s.timer with
    | none => s
    | some d => if d ≤ target then runFuel fuel target (fireAt d s) else s

/-- Modelled from the spec: letting `delta` milliseconds of virtual time
elapse — every armed deadline that falls inside the window fires in order
(§4.2 step 6), then the clock stands at the end of the window. -/
def advanceBy (delta : Nat) (s : TimeSync) : TimeSync :=
  let target := s.now + delta
  let s1 := runFuel (delta + 1) target s
  { s1 with now := target }

/-- Exact message thrown by `subscribe` for an invalid interval, from the
test `Throws an error if provided subscription interval is not a positive
integer`. -/
def subscribeErrMsg (v : JsNum) : String :=
  "TimeSync refresh interval must be a positive integer (received " ++ jsNumToString v ++ "ms)"

/-- Exact message thrown by the constructor for an invalid minimum interval,
from the test `Throws if custom min interval is not a positive integer`. -/
def minErrMsg (v : JsNum) : String :=
  "Minimum refresh interval must be a positive integer (received " ++ jsNumToString v ++ "ms)"

/-- Modelled from the spec: validation of `targetRefreshIntervalMs` — it must
be a positive integer or the idle sentinel, anything else raises
`InvalidIntervalError` synchronously (§4.1, §7). -/
def validateTarget (v : JsNum) : Except InvalidIntervalError (Option Nat) :=
  if v = JsNum.posInf then Except.ok none
  else if isPositiveInteger v then Except.ok (toIntervalOf v)
  else Except.error { message := subscribeErrMsg v }

/-- Modelled from the spec: the public `subscribe` — validate first, register
only on success; an error leaves the engine untouched (the caller keeps the
unmodified state), matching "invalid input never reaches the scheduler ...
all other registrations and the engine's internal timer remain unaffected"
(§7). -/
def subscribeChecked (s : TimeSync) (cb : Nat) (v : JsNum) :
    Except InvalidIntervalError (Nat × TimeSync) :=
  match validateTarget v with
  | Except.error e => Except.error e
  | Except.ok ivl => Except.ok (subscribeValid s cb ivl)

/-- Default minimum refresh interval.  The spec leaves the default value
unspecified beyond it being a positive integer no larger than the one-second
cadence the tests exercise; it is modelled as the smallest positive
integer. -/
def defaultMinimumRefreshIntervalMs : Nat := 1

/-- Modelled from the spec: construction (§6, §7) — an explicit
`minimumRefreshIntervalMs` must be a positive integer, otherwise construction
fails with `InvalidIntervalError`; `initialDate` defaults to the construction
instant. -/
def constructChecked (initialDate : Option Nat) (minimum : Option JsNum) (auto : Bool)
    (t0 : Nat) : Except InvalidIntervalError TimeSync :=
  match minimum with
  | none => Except.ok (TimeSync.init defaultMinimumRefreshIntervalMs auto (initialDate.getD t0) t0)
  | some v =>
    if isPositiveInteger v then
      match v with
      | JsNum.intVal i => Except.ok (TimeSync.init i.toNat auto (initialDate.getD t0) t0)
      | _ => Except.error { message := minErrMsg v }
    else Except.error { message := minErrMsg v }

/-- One operation of a subscribe/unsubscribe/advance/flush sequence against
the engine.  Subscribe carries an already-validated interval (`none` is the
idle sentinel). -/
inductive SyncOp
  | sub (cb : Nat) (ivl : Option Nat)
  | unsub (rid : Nat)
  | advance (delta : Nat)
  | flushAll
deriving DecidableEq

/-- Run one operation. -/
def runOp (s : TimeSync) : SyncOp → TimeSync
  | SyncOp.sub cb ivl => (subscribeValid s cb ivl).2
  | SyncOp.unsub rid => unsubscribeValid s rid
  | SyncOp.advance delta => advanceBy delta s
  | SyncOp.flushAll => flushOp s

/-- Run a sequence of operations. -/
def runOps (s : TimeSync) (ops : List SyncOp) : TimeSync :=
  ops.foldl runOp s

/-- The coalescer invariant: the configured floor is positive, the last tick
does not lie in the future, and the single timer handle mirrors the derived
effective interval — cancelled exactly when the effective interval is idle,
and otherwise armed at `lastTick + effectiveInterval`, a deadline strictly in
the future. -/
def EngineInv (s : TimeSync) : Prop :=
  1 ≤ s.minMs ∧ s.lastTick ≤ s.now ∧
    (s.effMin = none → s.timer = none) ∧
    (∀ m, s.effMin = some m → s.timer = some (s.lastTick + m) ∧ s.now < s.lastTick + m)

/-!
Embedding of `readonlyDate2.ts`.

A `ReadonlyDate` wraps a time-since-epoch value in milliseconds (the internal
date slot of the native `Date` it extends); its fifteen `set*` methods are
shadowed so that they mutate nothing and return `super.getTime()`.  A JS
method can in principle mutate its receiver, so each method is embedded as a
state transformer `ReadonlyDate → args → Int × ReadonlyDate` returning the
method's result together with the (here unchanged) receiver.  Optional
JavaScript parameters are `Option Int`.
-/

/-- The `ReadonlyDate` value: its wrapped epoch-millisecond timestamp. -/
structure ReadonlyDate where
  time : Int
deriving DecidableEq

/-- `getTime`, inherited unshadowed from the native `Date`. -/
def ReadonlyDate.getTime (d : ReadonlyDate) : Int :=
  d.time

/-- `setDate(_date) { return super.getTime(); }` -/
def ReadonlyDate.setDate (d : ReadonlyDate) (_date : Int) : Int × ReadonlyDate :=
  (d.getTime, d)

/-- `setFullYear(_year, _month?, _date?) { return super.getTime(); }` -/
def ReadonlyDate.setFullYear (d : ReadonlyDate) (_year : Int) (_month _date : Option Int) :
    Int × ReadonlyDate :=
  (d.getTime, d)

/-- `setHours(_hours, _min?, _sec?, _ms?) { return super.getTime(); }` -/
def ReadonlyDate.setHours (d : ReadonlyDate) (_hours : Int) (_min _sec _ms : Option Int) :
    Int × ReadonlyDate :=
  (d.getTime, d)

/-- `setMilliseconds(_ms) { return super.getTime(); }` -/
def ReadonlyDate.setMilliseconds (d : ReadonlyDate) (_ms : Int) : Int × ReadonlyDate :=
  (d.getTime, d)

/-- `setMinutes(_min, _sec?, _ms?) { return super.getTime(); }` -/
def ReadonlyDate.setMinutes (d : ReadonlyDate) (_min : Int) (_sec _ms : Option Int) :
    Int × ReadonlyDate :=
  (d.getTime, d)

/-- `setMonth(_month, _date?) { return super.getTime(); }` -/
def ReadonlyDate.setMonth (d : ReadonlyDate) (_month : Int) (_date : Option Int) :
    Int × ReadonlyDate :=
  (d.getTime, d)

/-- `setSeconds(_sec, _ms?) { return super.getTime(); }` -/
def ReadonlyDate.setSeconds (d : ReadonlyDate) (_sec : Int) (_ms : Option Int) :
    Int × ReadonlyDate :=
  (d.getTime, d)

/-- `setTime(_time) { return super.getTime(); }` -/
def ReadonlyDate.setTime (d : ReadonlyDate) (_time : Int) : Int × ReadonlyDate :=
  (d.getTime, d)

/-- `setUTCDate(_date) { return super.getTime(); }` -/
def ReadonlyDate.setUTCDate (d : ReadonlyDate) (_date : Int) : Int × ReadonlyDate :=
  (d.getTime, d)

/-- `setUTCFullYear(_year, _month?, _date?) { return super.getTime(); }` -/
def ReadonlyDate.setUTCFullYear (d : ReadonlyDate) (_year : Int) (_month _date : Option Int) :
    Int × ReadonlyDate :=
  (d.getTime, d)

/-- `setUTCHours(_hours, _min?, _sec?, _ms?) { return super.getTime(); }` -/
def ReadonlyDate.setUTCHours (d : ReadonlyDate) (_hours : Int) (_min _sec _ms : Option Int) :
    Int × ReadonlyDate :=
  (d.getTime, d)

/-- `setUTCMilliseconds(_ms) { return super.getTime(); }` -/
def ReadonlyDate.setUTCMilliseconds (d : ReadonlyDate) (_ms : Int) : Int × ReadonlyDate :=
  (d.getTime, d)

/-- `setUTCMinutes(_min, _sec?, _ms?) { return super.getTime(); }` -/
def ReadonlyDate.setUTCMinutes (d : ReadonlyDate) (_min : Int) (_sec _ms : Option Int) :
    Int × ReadonlyDate :=
  (d.getTime, d)

/-- `setUTCMonth(_month, _date?) { return super.getTime(); }` -/
def ReadonlyDate.setUTCMonth (d : ReadonlyDate) (_month : Int) (_date : Option Int) :
    Int × ReadonlyDate :=
  (d.getTime, d)

/-- `setUTCSeconds(_sec, _ms?) { return super.getTime(); }` -/
def ReadonlyDate.setUTCSeconds (d : ReadonlyDate) (_sec : Int) (_ms : Option Int) :
    Int × ReadonlyDate :=
  (d.getTime, d)

/-- One call to one of the fifteen shadowed mutator methods, with its
arguments (optional JavaScript parameters as `Option Int`). -/
inductive MutCall
  | callSetDate (date : Int)
  | callSetFullYear (year : Int) (month date : Option Int)
  | callSetHours (hours : Int) (min sec ms : Option Int)
  | callSetMilliseconds (ms : Int)
  | callSetMinutes (min : Int) (sec ms : Option Int)
  | callSetMonth (month : Int) (date : Option Int)
  | callSetSeconds (sec : Int) (ms : Option Int)
  | callSetTime (time : Int)
  | callSetUTCDate (date : Int)
  | callSetUTCFullYear (year : Int) (month date : Option Int)
  | callSetUTCHours (hours : Int) (min sec ms : Option Int)
  | callSetUTCMilliseconds (ms : Int)
  | callSetUTCMinutes (min : Int) (sec ms : Option Int)
  | callSetUTCMonth (month : Int) (date : Option Int)
  | callSetUTCSeconds (sec : Int) (ms : Option Int)
deriving DecidableEq

/-- Dispatch one mutator call to the embedded method. -/
def applyMutCall (d : ReadonlyDate) : MutCall → Int × ReadonlyDate
  | MutCall.callSetDate a => d.setDate a
  | MutCall.callSetFullYear a b c => d.setFullYear a b c
  | MutCall.callSetHours a b c e => d.setHours a b c e
  | MutCall.callSetMilliseconds a => d.setMilliseconds a
  | MutCall.callSetMinutes a b c => d.setMinutes a b c
  | MutCall.callSetMonth a b => d.setMonth a b
  | MutCall.callSetSeconds a b => d.setSeconds a b
  | MutCall.callSetTime a => d.setTime a
  | MutCall.callSetUTCDate a => d.setUTCDate a
  | MutCall.callSetUTCFullYear a b c => d.setUTCFullYear a b c
  | MutCall.callSetUTCHours a b c e => d.setUTCHours a b c e
  | MutCall.callSetUTCMilliseconds a => d.setUTCMilliseconds a
  | MutCall.callSetUTCMinutes a b c => d.setUTCMinutes a b c
  | MutCall.callSetUTCMonth a b => d.setUTCMonth a b
  | MutCall.callSetUTCSeconds a b => d.setUTCSeconds a b

/-- Run a sequence of mutator calls against the receiver, threading the
receiver state through (results are discarded, as in the test
`Turns all mutation methods into no-ops`). -/
def applyMutCalls (d : ReadonlyDate) (cs : List MutCall) : ReadonlyDate :=
  cs.foldl (fun x c => (applyMutCall x c).2) d

/-!
To express that `toDate` hands out a genuinely fresh mutable `Date` — so that
mutating the copy cannot reach back into the original — mutable native dates
are modelled as cells of a small heap of epoch-millisecond slots, addressed
by allocation index.  `toDate` reads `super.getTime()` and allocates a brand
new cell (`new Date(time)` in the source).
-/

/-- A heap of mutable native-`Date` cells; each cell is the internal
epoch-millisecond slot of one date object. -/
structure DateHeap where
  cells : List Int
deriving DecidableEq

/-- Allocate a fresh date cell holding `t`; returns its address. -/
def DateHeap.alloc (h : DateHeap) (t : Int) : Nat × DateHeap :=
  (h.cells.length, { cells := h.cells ++ [t] })

/-- Read the slot of the date cell at address `r`. -/
def DateHeap.read (h : DateHeap) (r : Nat) : Int :=
  h.cells.getD r 0

/-- Native `Date.prototype.setTime` on the cell at address `r`: overwrite its
slot (the genuinely mutable counterpart of the shadowed no-op). -/
def DateHeap.writeTime (h : DateHeap) (r : Nat) (t : Int) : DateHeap :=
  { cells := h.cells.set r t }

/-- `toDate(): Date` — `const time = super.getTime(); return new Date(time);`:
read the wrapped timestamp and allocate a fresh mutable date carrying it. -/
def ReadonlyDate.toDate (d : ReadonlyDate) (h : DateHeap) : Nat × DateHeap :=
  let time := d.getTime
  h.alloc time

/-!
Embedding of the `ReadonlyDate` constructor dispatch.

The constructor takes up to seven arguments.  What matters for its control
flow is the runtime type of the first argument, whether a second argument is
present, and `arguments.length`; the success branches delegate to the native
`Date` super-constructor, which is recorded abstractly as the super-call
performed (the calendar arithmetic of the platform `Date` is outside the
repository).
-/

/-- A runtime argument to the constructor: a number, a string, or a (possibly
readonly) date object. -/
inductive DateArg
  | num (v : JsNum)
  | str (s : String)
  | dateObj (t : Int)
deriving DecidableEq

/-- The JavaScript `typeof` of an argument. -/
def DateArg.typeName : DateArg → String
  | DateArg.num _ => "number"
  | DateArg.str _ => "string"
  | DateArg.dateObj _ => "object"

/-- The super-constructor call a successful dispatch performs. -/
inductive SuperCall
  | noArgs
  | single (a : DateArg)
  | components (args : List DateArg)
deriving DecidableEq

/-- An error thrown by the constructor: the `TypeError` of the impossible-case
guard, or the plain `Error` of the argument-count guard. -/
inductive CtorError
  | typeError (msg : String)
  | plainError (msg : String)
deriving DecidableEq

/-- The constructor body of `ReadonlyDate` (readonlyDate2.ts lines 80-157):
no arguments delegates to `super()`; one argument to `super(initValue)`; with
a defined second argument, a non-number first argument hits the
impossible-case `TypeError`, and otherwise the switch on `arguments.length`
delegates for counts 2 through 7 and throws a plain `Error` naming the count
for anything larger. -/
def readonlyDateCtor (args : List DateArg) : Except CtorError SuperCall :=
  match args with
  | [] => Except.ok SuperCall.noArgs
  | [a] => Except.ok (SuperCall.single a)
  | a :: _ :: _ =>
    match a with
    | DateArg.num _ =>
      if args.length ≤ 7 then Except.ok (SuperCall.components args)
      else
        Except.error (CtorError.plainError
          ("Cannot instantiate new Date with " ++ toString args.length ++ " arguments"))
    | _ =>
      Except.error (CtorError.typeError
        ("Impossible case encountered: init value has type of '" ++ a.typeName ++
          ", but additional arguments were provided after the first"))

/-- Modelled from the spec: the exported one-second refresh constant, an
integer millisecond count (§6). -/
def REFRESH_ONE_SECOND : Nat := 1000

/-- Modelled from the spec: the exported one-minute refresh constant. -/
def REFRESH_ONE_MINUTE : Nat := 60000

/-- Modelled from the spec: the exported one-hour refresh constant. -/
def REFRESH_ONE_HOUR : Nat := 3600000

/-- A state in which no timer deadline at or before `target` remains: either
no timer runs, or the deadline lies strictly beyond `target`. -/
def NoDueTimer (target : Nat) (s : TimeSync) : Prop :=
  ∀ d, s.timer = some d → target < d

/-!
Coalescer invariant: helper lemmas.
-/

theorem effMinOf_le (minMs : Nat) (regs : List Registration) (m : Nat)
    (h : effMinOf minMs regs = some m) : minMs ≤ m := by
  unfold effMinOf at h
  revert h
  cases regs.filterMap (fun r => r.interval) with
  | nil => intro h; cases h
  | cons x xs =>
    intro h
    simp at h
    calc minMs ≤ max minMs (xs.foldr min x) := le_max_left _ _
      _ = m := h

theorem runFuel_zero (target : Nat) (s : TimeSync) : runFuel 0 target s = s := rfl

theorem runFuel_succ_none (fuel target : Nat) (s : TimeSync) (h : s.timer = none) :
    runFuel (fuel + 1) target s = s := by
  simp [runFuel, h]

theorem runFuel_succ_fire (fuel target d : Nat) (s : TimeSync) (h : s.timer = some d)
    (hd : d ≤ target) : runFuel (fuel + 1) target s = runFuel fuel target (fireAt d s) := by
  simp [runFuel, h, hd]

theorem runFuel_succ_stop (fuel target d : Nat) (s : TimeSync) (h : s.timer = some d)
    (hd : ¬ d ≤ target) : runFuel (fuel + 1) target s = s := by
  simp [runFuel, h, hd]

theorem runFuel_of_noDue (fuel target : Nat) (s : TimeSync) (h : NoDueTimer target s) :
    runFuel fuel target s = s := by
  cases fuel with
  | zero => rfl
  | succ fuel =>
    cases ht : s.timer with
    | none => exact runFuel_succ_none fuel target s ht
    | some d =>
      exact runFuel_succ_stop fuel target d s ht (Nat.not_le_of_lt (h d ht))

theorem runFuel_spec (fuel : Nat) : ∀ (target : Nat) (s : TimeSync),
    1 ≤ s.minMs → s.lastTick ≤ target →
    (match effMinOf s.minMs s.regs with
     | none => s.timer = none
     | some m => s.timer = some (s.lastTick + m)) →
    (∀ d, s.timer = some d → target < d + fuel) →
    (runFuel fuel target s).minMs = s.minMs ∧
    (runFuel fuel target s).autoNotify = s.autoNotify ∧
    (runFuel fuel target s).regs = s.regs ∧
    (runFuel fuel target s).now = s.now ∧
    (runFuel fuel target s).nextRegId = s.nextRegId ∧
    (runFuel fuel target s).lastTick ≤ target ∧
    (match effMinOf (runFuel fuel target s).minMs (runFuel fuel target s).regs with
     | none => (runFuel fuel target s).timer = none
     | some m =>
        (runFuel fuel target s).timer = some ((runFuel fuel target s).lastTick + m) ∧
        target < (runFuel fuel target s).lastTick + m) := by
  induction fuel with
  | zero =>
    intro target s hmin hlt hmatch hbound
    rw [runFuel_zero]
    refine ⟨rfl, rfl, rfl, rfl, rfl, hlt, ?_⟩
    cases hm : effMinOf s.minMs s.regs with
    | none =>
      rw [hm] at hmatch
      exact hmatch
    | some m =>
      rw [hm] at hmatch
      have h2 : s.timer = some (s.lastTick + m) := hmatch
      have h3 := hbound (s.lastTick + m) h2
      exact ⟨h2, by omega⟩
  | succ fuel ih =>
    intro target s hmin hlt hmatch hbound
    cases ht : s.timer with
    | none =>
      rw [runFuel_succ_none fuel target s ht]
      refine ⟨rfl, rfl, rfl, rfl, rfl, hlt, ?_⟩
      cases hm : effMinOf s.minMs s.regs with
      | none => exact ht
      | some m =>
        rw [hm] at hmatch
        have h2 : s.timer = some (s.lastTick + m) := hmatch
        rw [h2] at ht
        cases ht
    | some d =>
      have hm : ∃ m, effMinOf s.minMs s.regs = some m ∧ d = s.lastTick + m := by
        cases hm : effMinOf s.minMs s.regs with
        | none =>
          rw [hm] at hmatch
          have h2 : s.timer = none := hmatch
          rw [h2] at ht
          cases ht
        | some m =>
          rw [hm] at hmatch
          have h2 : s.timer = some (s.lastTick + m) := hmatch
          rw [h2] at ht
          exact ⟨m, rfl, ((Option.some.injEq _ _).mp ht).symm⟩
      obtain ⟨m, hm, hd⟩ := hm
      have hmpos : 1 ≤ m := le_trans hmin (effMinOf_le s.minMs s.regs m hm)
      by_cases hdt : d ≤ target
      · rw [runFuel_succ_fire fuel target d s ht hdt]
        have etimer : (fireAt d s).timer = some (d + m) := by
          show (effMinOf s.minMs s.regs).map (fun k => d + k) = some (d + m)
          rw [hm]
          rfl
        have hrec := ih target (fireAt d s) hmin hdt ?_ ?_
        · exact hrec
        · show (match effMinOf s.minMs s.regs with
            | none => (fireAt d s).timer = none
            | some k => (fireAt d s).timer = some ((fireAt d s).lastTick + k))
          rw [hm]
          exact etimer
        · intro d2 hd2
          rw [etimer] at hd2
          have he : d2 = d + m := ((Option.some.injEq _ _).mp hd2).symm
          have hb := hbound d ht
          omega
      · rw [runFuel_succ_stop fuel target d s ht hdt]
        refine ⟨rfl, rfl, rfl, rfl, rfl, hlt, ?_⟩
        rw [hm]
        have hgt : target < d := Nat.lt_of_not_le hdt
        rw [hd] at ht hgt
        exact ⟨ht, hgt⟩

theorem inv_init (minMs : Nat) (auto : Bool) (d0 t0 : Nat) (h : 1 ≤ minMs) :
    EngineInv (TimeSync.init minMs auto d0 t0) := by
  refine ⟨h, Nat.le_refl _, fun _ => rfl, fun m hm => ?_⟩
  cases hm

theorem inv_recompute (s : TimeSync) (h1 : 1 ≤ s.minMs) (h2 : s.lastTick ≤ s.now) :
    EngineInv (recompute s) := by
  cases hm : effMinOf s.minMs s.regs with
  | none =>
    have he : recompute s = { s with timer := none } := by
      unfold recompute
      rw [hm]
    rw [he]
    refine ⟨h1, h2, fun _ => rfl, fun m hm2 => ?_⟩
    have hm3 : effMinOf s.minMs s.regs = some m := hm2
    rw [hm3] at hm
    cases hm
  | some m =>
    have hmm : 1 ≤ m := le_trans h1 (effMinOf_le s.minMs s.regs m hm)
    by_cases hc : s.lastTick + m ≤ s.now
    · have he : recompute s = fireAt s.now s := by
        unfold recompute
        rw [hm]
        exact if_pos hc
      rw [he]
      refine ⟨h1, Nat.le_refl _, fun hx => ?_, fun k hk => ?_⟩
      · have hx2 : effMinOf s.minMs s.regs = none := hx
        rw [hx2] at hm
        cases hm
      · have hk2 : effMinOf s.minMs s.regs = some k := hk
        rw [hk2] at hm
        have hkm : k = m := by
          have := (Option.some.injEq _ _).mp hm
          omega
        subst hkm
        constructor
        · show (effMinOf s.minMs s.regs).map (fun j => s.now + j) = some (s.now + k)
          rw [hk2]
          rfl
        · show s.now < s.now + k
          omega
    · have he : recompute s = { s with timer := some (s.lastTick + m) } := by
        unfold recompute
        rw [hm]
        exact if_neg hc
      rw [he]
      refine ⟨h1, h2, fun hx => ?_, fun k hk => ?_⟩
      · have hx2 : effMinOf s.minMs s.regs = none := hx
        rw [hx2] at hm
        cases hm
      · have hk2 : effMinOf s.minMs s.regs = some k := hk
        rw [hk2] at hm
        have hkm : k = m := by
          have := (Option.some.injEq _ _).mp hm
          omega
        subst hkm
        refine ⟨rfl, ?_⟩
        show s.now < s.lastTick + k
        omega

theorem inv_unsubscribe (s : TimeSync) (rid : Nat) (h : EngineInv s) :
    EngineInv (unsubscribeValid s rid) := by
  obtain ⟨h1, h2, _, _⟩ := h
  exact inv_recompute _ h1 h2

theorem inv_flush (s : TimeSync) (h : EngineInv s) : EngineInv (flushOp s) := by
  obtain ⟨h1, h2, h3, h4⟩ := h
  exact ⟨h1, h2, h3, h4⟩

theorem inv_subscribe (s : TimeSync) (cb : Nat) (ivl : Option Nat) (h : EngineInv s) :
    EngineInv (subscribeState s cb ivl) := by
  obtain ⟨h1, h2, h3, h4⟩ := h
  by_cases hE : s.regs.isEmpty
  · cases hm : effMinOf s.minMs
        (s.regs ++ [{ rid := s.nextRegId, cb := cb, interval := ivl }]) with
    | none =>
      have he : subscribeState s cb ivl =
          { s with
            regs := s.regs ++ [{ rid := s.nextRegId, cb := cb, interval := ivl }]
            nextRegId := s.nextRegId + 1
            timer := none } := by
        unfold subscribeState
        rw [if_pos hE]
        rw [show effMinOf s.minMs (s.regs ++ [{ rid := s.nextRegId, cb := cb, interval := ivl }])
          = none from hm]
      rw [he]
      refine ⟨h1, h2, fun _ => rfl, fun m hm2 => ?_⟩
      have hm3 : effMinOf s.minMs
          (s.regs ++ [{ rid := s.nextRegId, cb := cb, interval := ivl }]) = some m := hm2
      rw [hm3] at hm
      cases hm
    | some m =>
      have he : subscribeState s cb ivl =
          { s with
            regs := s.regs ++ [{ rid := s.nextRegId, cb := cb, interval := ivl }]
            nextRegId := s.nextRegId + 1
            snapshot := s.now
            pending := s.pending || !s.autoNotify
            lastTick := s.now
            timer := some (s.now + m) } := by
        unfold subscribeState
        rw [if_pos hE]
        rw [show effMinOf s.minMs (s.regs ++ [{ rid := s.nextRegId, cb := cb, interval := ivl }])
          = some m from hm]
      rw [he]
      have hmm : 1 ≤ m := le_trans h1 (effMinOf_le _ _ m hm)
      refine ⟨h1, Nat.le_refl _, fun hx => ?_, fun k hk => ?_⟩
      · have hx2 : effMinOf s.minMs
            (s.regs ++ [{ rid := s.nextRegId, cb := cb, interval := ivl }]) = none := hx
        rw [hx2] at hm
        cases hm
      · have hk2 : effMinOf s.minMs
            (s.regs ++ [{ rid := s.nextRegId, cb := cb, interval := ivl }]) = some k := hk
        rw [hk2] at hm
        have hkm : k = m := (Option.some.injEq _ _).mp hm
        subst hkm
        refine ⟨rfl, ?_⟩
        show s.now < s.now + k
        omega
  · have he : subscribeState s cb ivl = recompute
        { s with
          regs := s.regs ++ [{ rid := s.nextRegId, cb := cb, interval := ivl }]
          nextRegId := s.nextRegId + 1 } := by
      unfold subscribeState
      rw [if_neg hE]
    rw [he]
    exact inv_recompute _ h1 h2

theorem inv_advance (delta : Nat) (s : TimeSync) (h : EngineInv s) :
    EngineInv (advanceBy delta s) := by
  obtain ⟨h1, h2, h3, h4⟩ := h
  have hmatch : (match effMinOf s.minMs s.regs with
      | none => s.timer = none
      | some m => s.timer = some (s.lastTick + m)) := by
    cases hm : effMinOf s.minMs s.regs with
    | none => exact h3 hm
    | some m => exact (h4 m hm).1
  have hbound : ∀ d, s.timer = some d → s.now + delta < d + (delta + 1) := by
    intro d hd
    cases hm : effMinOf s.minMs s.regs with
    | none =>
      rw [h3 hm] at hd
      cases hd
    | some m =>
      obtain ⟨ht, hlt⟩ := h4 m hm
      rw [ht] at hd
      have : s.lastTick + m = d := (Option.some.injEq _ _).mp hd
      omega
  obtain ⟨e1, e2, e3, e4, e5, hlt, hmat⟩ :=
    runFuel_spec (delta + 1) (s.now + delta) s h1 (by omega) hmatch hbound
  refine ⟨?_, ?_, ?_, ?_⟩
  · show 1 ≤ (runFuel (delta + 1) (s.now + delta) s).minMs
    rw [e1]
    exact h1
  · show (runFuel (delta + 1) (s.now + delta) s).lastTick ≤ s.now + delta
    exact hlt
  · intro hx
    have hx2 : effMinOf (runFuel (delta + 1) (s.now + delta) s).minMs
        (runFuel (delta + 1) (s.now + delta) s).regs = none := hx
    rw [hx2] at hmat
    exact hmat
  · intro m hm
    have hm2 : effMinOf (runFuel (delta + 1) (s.now + delta) s).minMs
        (runFuel (delta + 1) (s.now + delta) s).regs = some m := hm
    rw [hm2] at hmat
    exact hmat

theorem inv_runOp (s : TimeSync) (op : SyncOp) (h : EngineInv s) : EngineInv (runOp s op) := by
  cases op with
  | sub cb ivl => exact inv_subscribe s cb ivl h
  | unsub rid => exact inv_unsubscribe s rid h
  | advance delta => exact inv_advance delta s h
  | flushAll => exact inv_flush s h

theorem inv_runOps (ops : List SyncOp) : ∀ s : TimeSync, EngineInv s → EngineInv (runOps s ops) := by
  induction ops with
  | nil => intro s h; exact h
  | cons op ops ih => intro s h; exact ih (runOp s op) (inv_runOp s op h)

theorem runFuel_minMs (fuel : Nat) : ∀ (target : Nat) (s : TimeSync),
    (runFuel fuel target s).minMs = s.minMs := by
  induction fuel with
  | zero => intro _ _; rfl
  | succ fuel ih =>
    intro target s
    cases ht : s.timer with
    | none => rw [runFuel_succ_none fuel target s ht]
    | some d =>
      by_cases hd : d ≤ target
      · rw [runFuel_succ_fire fuel target d s ht hd]
        exact ih target (fireAt d s)
      · rw [runFuel_succ_stop fuel target d s ht hd]

theorem recompute_minMs (s : TimeSync) : (recompute s).minMs = s.minMs := by
  unfold recompute
  split
  · rfl
  · split
    · rfl
    · rfl

theorem subscribeState_minMs (s : TimeSync) (cb : Nat) (ivl : Option Nat) :
    (subscribeState s cb ivl).minMs = s.minMs := by
  unfold subscribeState
  by_cases hE : s.regs.isEmpty
  · rw [if_pos hE]
    cases effMinOf s.minMs (s.regs ++ [{ rid := s.nextRegId, cb := cb, interval := ivl }]) with
    | none => rfl
    | some m => rfl
  · rw [if_neg hE]
    exact recompute_minMs _

theorem runOp_minMs (s : TimeSync) (op : SyncOp) : (runOp s op).minMs = s.minMs := by
  cases op with
  | sub cb ivl => exact subscribeState_minMs s cb ivl
  | unsub rid => exact recompute_minMs _
  | advance delta =>
    show (runFuel (delta + 1) (s.now + delta) s).minMs = s.minMs
    exact runFuel_minMs (delta + 1) (s.now + delta) s
  | flushAll => rfl

theorem runOps_minMs (ops : List SyncOp) : ∀ s : TimeSync, (runOps s ops).minMs = s.minMs := by
  induction ops with
  | nil => intro s; rfl
  | cons op ops ih =>
    intro s
    calc (runOps (runOp s op) ops).minMs = (runOp s op).minMs := ih (runOp s op)
      _ = s.minMs := runOp_minMs s op

/-- Claim C1: for every sequence of subscribe/unsubscribe (and advance/flush)
operations on an engine instance, the effective tick interval — the deadline
the single timer handle is armed at, measured from the last tick — equals
`max(minimumRefreshIntervalMs, min of the requested intervals of all live
registrations)` (the value of `effMinOf`), no timer runs exactly when no live
non-idle registration exists, and every requested interval below the
configured minimum is rounded up to at least that minimum
(`minimumRefreshIntervalMs ≤ m`). -/
theorem effectiveInterval_invariant (minMs : Nat) (auto : Bool) (t0 : Nat)
    (ops : List SyncOp) (hmin : 1 ≤ minMs) :
    (runOps (TimeSync.init minMs auto t0 t0) ops).minMs = minMs ∧
    ((runOps (TimeSync.init minMs auto t0 t0) ops).timer = none ↔
      effMinOf minMs (runOps (TimeSync.init minMs auto t0 t0) ops).regs = none) ∧
    (∀ m, effMinOf minMs (runOps (TimeSync.init minMs auto t0 t0) ops).regs = some m →
      (runOps (TimeSync.init minMs auto t0 t0) ops).timer =
        some ((runOps (TimeSync.init minMs auto t0 t0) ops).lastTick + m) ∧ minMs ≤ m) := by
  have hM := runOps_minMs ops (TimeSync.init minMs auto t0 t0)
  obtain ⟨h1, h2, h3, h4⟩ := inv_runOps ops _ (inv_init minMs auto t0 t0 hmin)
  have hEff : TimeSync.effMin (runOps (TimeSync.init minMs auto t0 t0) ops) =
      effMinOf minMs (runOps (TimeSync.init minMs auto t0 t0) ops).regs := by
    unfold TimeSync.effMin
    rw [hM]
    rfl
  refine ⟨by rw [hM]; rfl, ⟨?_, ?_⟩, ?_⟩
  · intro ht
    cases hm : effMinOf minMs (runOps (TimeSync.init minMs auto t0 t0) ops).regs with
    | none => rfl
    | some m =>
      have hsm := (h4 m (by rw [hEff]; exact hm)).1
      rw [hsm] at ht
      cases ht
  · intro hn
    exact h3 (by rw [hEff]; exact hn)
  · intro m hm
    have hsm : TimeSync.effMin (runOps (TimeSync.init minMs auto t0 t0) ops) = some m := by
      rw [hEff]
      exact hm
    exact ⟨(h4 m hsm).1, effMinOf_le minMs _ m hm⟩

/-- Claim C1, witness: the empty operation sequence on a default engine. -/
theorem effectiveInterval_invariant_witness :
    (1 ≤ 1) ∧
    ((runOps (TimeSync.init 1 true 0 0) []).timer = none ↔
      effMinOf 1 (runOps (TimeSync.init 1 true 0 0) []).regs = none) := by
  refine ⟨by decide, ?_⟩
  exact (effectiveInterval_invariant 1 true 0 [] (by decide)).2.1

/-- Claim C3: if an engine instance has zero live registrations, then elapsed
time changes nothing except the clock: the whole state is preserved, and in
particular `getStateSnapshot` returns the very snapshot held when the
subscriber count reached zero (the initial date if no one ever subscribed). -/
theorem zeroSubscribers_snapshot_frozen (minMs : Nat) (auto : Bool) (t0 : Nat)
    (ops : List SyncOp) (hmin : 1 ≤ minMs)
    (hzero : (runOps (TimeSync.init minMs auto t0 t0) ops).regs = []) :
    ∀ delta : Nat,
      advanceBy delta (runOps (TimeSync.init minMs auto t0 t0) ops) =
        { runOps (TimeSync.init minMs auto t0 t0) ops with
          now := (runOps (TimeSync.init minMs auto t0 t0) ops).now + delta } ∧
      (advanceBy delta (runOps (TimeSync.init minMs auto t0 t0) ops)).getStateSnapshot =
        (runOps (TimeSync.init minMs auto t0 t0) ops).getStateSnapshot := by
  intro delta
  obtain ⟨h1, h2, h3, h4⟩ := inv_runOps ops _ (inv_init minMs auto t0 t0 hmin)
  have hnone : TimeSync.effMin (runOps (TimeSync.init minMs auto t0 t0) ops) = none := by
    unfold TimeSync.effMin
    rw [hzero]
    rfl
  have ht := h3 hnone
  have hrun : runFuel (delta + 1)
      ((runOps (TimeSync.init minMs auto t0 t0) ops).now + delta)
      (runOps (TimeSync.init minMs auto t0 t0) ops) =
      runOps (TimeSync.init minMs auto t0 t0) ops := by
    refine runFuel_of_noDue _ _ _ ?_
    intro d hd
    rw [ht] at hd
    cases hd
  have he : advanceBy delta (runOps (TimeSync.init minMs auto t0 t0) ops) =
      { runFuel (delta + 1)
          ((runOps (TimeSync.init minMs auto t0 t0) ops).now + delta)
          (runOps (TimeSync.init minMs auto t0 t0) ops) with
        now := (runOps (TimeSync.init minMs auto t0 t0) ops).now + delta } := rfl
  rw [he, hrun]
  exact ⟨rfl, rfl⟩

/-- Claim C3, witness: a freshly constructed engine has no registrations, and
five seconds of elapsed time leave its snapshot untouched. -/
theorem zeroSubscribers_snapshot_frozen_witness :
    (runOps (TimeSync.init 1 true 7 7) []).regs = [] ∧
    (advanceBy 5000 (runOps (TimeSync.init 1 true 7 7) [])).getStateSnapshot =
      (runOps (TimeSync.init 1 true 7 7) []).getStateSnapshot :=
  ⟨rfl, (zeroSubscribers_snapshot_frozen 1 true 7 [] (by decide) rfl 5000).2⟩

/-- Claim C7: if every live registration requests the idle sentinel interval,
no periodic timer is armed and elapsing any amount of time changes nothing
but the clock — in particular the invocation log stays as it is, so no
registered callback is ever invoked. -/
theorem allIdle_no_timer_no_callbacks (minMs : Nat) (auto : Bool) (t0 : Nat)
    (ops : List SyncOp) (hmin : 1 ≤ minMs)
    (hidle : ∀ r ∈ (runOps (TimeSync.init minMs auto t0 t0) ops).regs, r.interval = none) :
    (runOps (TimeSync.init minMs auto t0 t0) ops).timer = none ∧
    ∀ delta : Nat,
      advanceBy delta (runOps (TimeSync.init minMs auto t0 t0) ops) =
        { runOps (TimeSync.init minMs auto t0 t0) ops with
          now := (runOps (TimeSync.init minMs auto t0 t0) ops).now + delta } ∧
      (advanceBy delta (runOps (TimeSync.init minMs auto t0 t0) ops)).log =
        (runOps (TimeSync.init minMs auto t0 t0) ops).log := by
  obtain ⟨h1, h2, h3, h4⟩ := inv_runOps ops _ (inv_init minMs auto t0 t0 hmin)
  have hnone : TimeSync.effMin (runOps (TimeSync.init minMs auto t0 t0) ops) = none := by
    unfold TimeSync.effMin effMinOf
    have hfm : (runOps (TimeSync.init minMs auto t0 t0) ops).regs.filterMap
        (fun r => r.interval) = [] := by
      rw [List.filterMap_eq_nil_iff]
      exact hidle
    rw [hfm]
  have ht := h3 hnone
  refine ⟨ht, ?_⟩
  intro delta
  have hrun : runFuel (delta + 1)
      ((runOps (TimeSync.init minMs auto t0 t0) ops).now + delta)
      (runOps (TimeSync.init minMs auto t0 t0) ops) =
      runOps (TimeSync.init minMs auto t0 t0) ops := by
    refine runFuel_of_noDue _ _ _ ?_
    intro d hd
    rw [ht] at hd
    cases hd
  have he : advanceBy delta (runOps (TimeSync.init minMs auto t0 t0) ops) =
      { runFuel (delta + 1)
          ((runOps (TimeSync.init minMs auto t0 t0) ops).now + delta)
          (runOps (TimeSync.init minMs auto t0 t0) ops) with
        now := (runOps (TimeSync.init minMs auto t0 t0) ops).now + delta } := rfl
  rw [he, hrun]
  exact ⟨rfl, rfl⟩

/-- Claim C7, witness: one subscriber on the idle sentinel; an hour of
elapsed time produces no timer and no invocation. -/
theorem allIdle_no_timer_no_callbacks_witness :
    (∀ r ∈ (runOps (TimeSync.init 1 true 0 0) [SyncOp.sub 0 none]).regs, r.interval = none) ∧
    (runOps (TimeSync.init 1 true 0 0) [SyncOp.sub 0 none]).timer = none ∧
    (advanceBy 3600000 (runOps (TimeSync.init 1 true 0 0) [SyncOp.sub 0 none])).log =
      (runOps (TimeSync.init 1 true 0 0) [SyncOp.sub 0 none]).log := by
  have h := allIdle_no_timer_no_callbacks 1 true 0 [SyncOp.sub 0 none] (by decide) (by decide)
  exact ⟨by decide, h.1, (h.2 3600000).2⟩

/-- Claim C6: in every notification round — a periodic tick (`fireAt` in
auto-notify mode) or a manual `flush` — each distinct callback identity is
invoked exactly once with the current snapshot, however many live
registrations share it and whatever their intervals: the fan-out is
deduplicated by callback identity, not by registration identity. -/
theorem notifyRound_once_per_callback (s : TimeSync) (c : Nat) :
    ((notifyRound s).map Prod.fst).count c =
      (if c ∈ s.regs.map (fun r => r.cb) then 1 else 0) ∧
    (∀ p ∈ notifyRound s, p.2 = s.snapshot) ∧
    (∀ d : Nat,
      (fireAt d { s with autoNotify := true }).log =
        s.log ++ notifyRound { s with snapshot := d }) ∧
    (flushOp s).log = s.log ++ notifyRound s := by
  refine ⟨?_, ?_, fun _ => rfl, rfl⟩
  · have hfst : (notifyRound s).map Prod.fst = (s.regs.map (fun r => r.cb)).dedup := by
      unfold notifyRound
      rw [List.map_map]
      have hc : (Prod.fst ∘ fun c : Nat => (c, s.snapshot)) = id := rfl
      rw [hc, List.map_id]
    rw [hfst]
    exact List.count_dedup _ c
  · intro p hp
    unfold notifyRound at hp
    obtain ⟨c2, _, hc2⟩ := List.mem_map.mp hp
    rw [← hc2]

/-- Claim C2: every value that is neither a positive integer nor the idle
sentinel, passed as `targetRefreshIntervalMs` to `subscribe` or as
`minimumRefreshIntervalMs` to the constructor, is rejected synchronously with
an `InvalidIntervalError` whose message embeds the offending value; the error
is returned instead of any new state, so the engine instance and every
existing registration are untouched by the failed call. -/
theorem invalidInterval_rejected (v : JsNum) (hp : isPositiveInteger v = false)
    (hs : v ≠ JsNum.posInf) :
    (∀ (s : TimeSync) (cb : Nat),
      subscribeChecked s cb v = Except.error
        { message := "TimeSync refresh interval must be a positive integer (received " ++
            jsNumToString v ++ "ms)" }) ∧
    (∀ (initialDate : Option Nat) (auto : Bool) (t0 : Nat),
      constructChecked initialDate (some v) auto t0 = Except.error
        { message := "Minimum refresh interval must be a positive integer (received " ++
            jsNumToString v ++ "ms)" }) := by
  constructor
  · intro s cb
    simp [subscribeChecked, validateTarget, hp, hs, subscribeErrMsg]
  · intro initialDate auto t0
    simp [constructChecked, hp, minErrMsg]

/-- Claim C2, witness: the non-integer 470.53 is rejected by both entry
points with the exact messages of the test file. -/
theorem invalidInterval_rejected_witness :
    subscribeChecked (TimeSync.init 1 true 0 0) 0 (JsNum.nonIntVal "470.53") = Except.error
      { message := "TimeSync refresh interval must be a positive integer (received 470.53ms)" } ∧
    constructChecked none (some (JsNum.nonIntVal "470.53")) true 0 = Except.error
      { message := "Minimum refresh interval must be a positive integer (received 470.53ms)" } := by
  have h := invalidInterval_rejected (JsNum.nonIntVal "470.53") rfl (by decide)
  exact ⟨h.1 (TimeSync.init 1 true 0 0) 0, h.2 none true 0⟩

theorem advanceBy_single_fire (delta : Nat) (s : TimeSync) (m : Nat)
    (ht : s.timer = some (s.now + delta))
    (hm : effMinOf s.minMs s.regs = some m) (hmpos : 1 ≤ m) :
    advanceBy delta s = { fireAt (s.now + delta) s with now := s.now + delta } := by
  have htimer : (fireAt (s.now + delta) s).timer = some (s.now + delta + m) := by
    show (effMinOf s.minMs s.regs).map (fun k => s.now + delta + k) = some (s.now + delta + m)
    rw [hm]
    rfl
  have hno : NoDueTimer (s.now + delta) (fireAt (s.now + delta) s) := by
    intro d hd
    rw [htimer] at hd
    have hdm : d = s.now + delta + m := ((Option.some.injEq _ _).mp hd).symm
    omega
  show ({ runFuel (delta + 1) (s.now + delta) s with now := s.now + delta } : TimeSync) =
      { fireAt (s.now + delta) s with now := s.now + delta }
  rw [runFuel_succ_fire delta (s.now + delta) (s.now + delta) s ht (Nat.le_refl _),
    runFuel_of_noDue delta (s.now + delta) (fireAt (s.now + delta) s) hno]

/-- Claim C4: constructing with no options at instant `t0` yields snapshot
`t0`; the first subscriber at one-second cadence gets a synchronous,
non-notifying snapshot refresh (the invocation log stays empty, the snapshot
and tick baseline are set to the current instant), and after exactly one
second of elapsed time its callback has been invoked exactly once, with a
snapshot equal to `t0` plus one second. -/
theorem first_subscription_scenario (t0 cb : Nat) :
    constructChecked none none true t0 =
      Except.ok (TimeSync.init defaultMinimumRefreshIntervalMs true t0 t0) ∧
    (TimeSync.init defaultMinimumRefreshIntervalMs true t0 t0).getStateSnapshot = t0 ∧
    (subscribeValid (TimeSync.init defaultMinimumRefreshIntervalMs true t0 t0) cb
        (some REFRESH_ONE_SECOND)).2.log = [] ∧
    (subscribeValid (TimeSync.init defaultMinimumRefreshIntervalMs true t0 t0) cb
        (some REFRESH_ONE_SECOND)).2.snapshot = t0 ∧
    (subscribeValid (TimeSync.init defaultMinimumRefreshIntervalMs true t0 t0) cb
        (some REFRESH_ONE_SECOND)).2.lastTick = t0 ∧
    (advanceBy REFRESH_ONE_SECOND
        (subscribeValid (TimeSync.init defaultMinimumRefreshIntervalMs true t0 t0) cb
          (some REFRESH_ONE_SECOND)).2).log = [(cb, t0 + REFRESH_ONE_SECOND)] ∧
    (advanceBy REFRESH_ONE_SECOND
        (subscribeValid (TimeSync.init defaultMinimumRefreshIntervalMs true t0 t0) cb
          (some REFRESH_ONE_SECOND)).2).getStateSnapshot = t0 + REFRESH_ONE_SECOND := by
  have hadv := advanceBy_single_fire REFRESH_ONE_SECOND
    (subscribeValid (TimeSync.init defaultMinimumRefreshIntervalMs true t0 t0) cb
      (some REFRESH_ONE_SECOND)).2 REFRESH_ONE_SECOND rfl rfl (by decide)
  refine ⟨rfl, rfl, rfl, rfl, rfl, ?_, ?_⟩
  · rw [hadv]
    rfl
  · rw [hadv]
    rfl

/-- Claim C5: with registrations at 500ms and 1000ms, removing the fastest at
elapsed time 450ms since the last tick does not restart the slower interval:
the engine is left with a one-shot deadline 550ms away (absolute instant
1000 = lastTick + 1000, with the clock at 450), that deadline fires the
1000ms subscriber once, and periodic ticking then resumes on the 1000ms
interval (next deadline 2000, next invocation at 2000). -/
theorem fastestRemoved_catchup_not_restart :
    (runOps (TimeSync.init 1 true 0 0)
      [SyncOp.sub 0 (some 500), SyncOp.sub 1 (some 1000),
        SyncOp.advance 450, SyncOp.unsub 0]).now = 450 ∧
    (runOps (TimeSync.init 1 true 0 0)
      [SyncOp.sub 0 (some 500), SyncOp.sub 1 (some 1000),
        SyncOp.advance 450, SyncOp.unsub 0]).timer = some (450 + 550) ∧
    (runOps (TimeSync.init 1 true 0 0)
      [SyncOp.sub 0 (some 500), SyncOp.sub 1 (some 1000),
        SyncOp.advance 450, SyncOp.unsub 0]).log = [] ∧
    (runOps (TimeSync.init 1 true 0 0)
      [SyncOp.sub 0 (some 500), SyncOp.sub 1 (some 1000),
        SyncOp.advance 450, SyncOp.unsub 0, SyncOp.advance 550]).log = [(1, 1000)] ∧
    (runOps (TimeSync.init 1 true 0 0)
      [SyncOp.sub 0 (some 500), SyncOp.sub 1 (some 1000),
        SyncOp.advance 450, SyncOp.unsub 0, SyncOp.advance 550]).timer = some 2000 ∧
    (runOps (TimeSync.init 1 true 0 0)
      [SyncOp.sub 0 (some 500), SyncOp.sub 1 (some 1000),
        SyncOp.advance 450, SyncOp.unsub 0, SyncOp.advance 550,
        SyncOp.advance 1000]).log = [(1, 1000), (1, 2000)] := by
  refine ⟨rfl, rfl, rfl, rfl, rfl, rfl⟩

theorem getD_set_ne (l : List Int) (n m : Nat) (a dflt : Int) (hne : n ≠ m) :
    (l.set n a).getD m dflt = l.getD m dflt := by
  induction l generalizing n m with
  | nil => rfl
  | cons x xs ih =>
    cases n with
    | zero =>
      cases m with
      | zero => exact absurd rfl hne
      | succ m => rfl
    | succ n =>
      cases m with
      | zero => rfl
      | succ m =>
        show (xs.set n a).getD m dflt = xs.getD m dflt
        exact ih n m (fun hc => hne (by rw [hc]))

/-- Claim C8: every mutator method of `ReadonlyDate` (all fifteen `set*`
shadows), called with any arguments in any sequence, leaves the wrapped
time-since-epoch value unchanged: the result of the whole sequence equals the
copy taken before it, and in particular `getTime` is unchanged. -/
theorem readonlyDate_mutators_are_noOps (d : ReadonlyDate) (cs : List MutCall) :
    applyMutCalls d cs = d ∧ (applyMutCalls d cs).getTime = d.getTime := by
  have hmain : applyMutCalls d cs = d := by
    induction cs with
    | nil => rfl
    | cons c cs ih =>
      have hstep : (applyMutCall d c).2 = d := by
        cases c with
        | callSetDate a => rfl
        | callSetFullYear a b c => rfl
        | callSetHours a b c e => rfl
        | callSetMilliseconds a => rfl
        | callSetMinutes a b c => rfl
        | callSetMonth a b => rfl
        | callSetSeconds a b => rfl
        | callSetTime a => rfl
        | callSetUTCDate a => rfl
        | callSetUTCFullYear a b c => rfl
        | callSetUTCHours a b c e => rfl
        | callSetUTCMilliseconds a => rfl
        | callSetUTCMinutes a b c => rfl
        | callSetUTCMonth a b => rfl
        | callSetUTCSeconds a b => rfl
      show applyMutCalls (applyMutCall d c).2 cs = d
      rw [hstep]
      exact ih
  exact ⟨hmain, by rw [hmain]⟩

/-- Claim C9: every mutator method of `ReadonlyDate` returns the unchanged
underlying epoch-millisecond timestamp — the very value `getTime` returns —
and `toDate` allocates a fresh mutable date cell carrying that same
timestamp, distinct from every previously existing cell, so that writing
through the returned date (native `setTime`) leaves every pre-existing cell
untouched. -/
theorem readonlyDate_mutators_return_timestamp_toDate_fresh (d : ReadonlyDate) (h : DateHeap) :
    (∀ a : Int, (d.setDate a).1 = d.getTime) ∧
    (∀ (a : Int) (b c : Option Int), (d.setFullYear a b c).1 = d.getTime) ∧
    (∀ (a : Int) (b c e : Option Int), (d.setHours a b c e).1 = d.getTime) ∧
    (∀ a : Int, (d.setMilliseconds a).1 = d.getTime) ∧
    (∀ (a : Int) (b c : Option Int), (d.setMinutes a b c).1 = d.getTime) ∧
    (∀ (a : Int) (b : Option Int), (d.setMonth a b).1 = d.getTime) ∧
    (∀ (a : Int) (b : Option Int), (d.setSeconds a b).1 = d.getTime) ∧
    (∀ a : Int, (d.setTime a).1 = d.getTime) ∧
    (∀ a : Int, (d.setUTCDate a).1 = d.getTime) ∧
    (∀ (a : Int) (b c : Option Int), (d.setUTCFullYear a b c).1 = d.getTime) ∧
    (∀ (a : Int) (b c e : Option Int), (d.setUTCHours a b c e).1 = d.getTime) ∧
    (∀ a : Int, (d.setUTCMilliseconds a).1 = d.getTime) ∧
    (∀ (a : Int) (b c : Option Int), (d.setUTCMinutes a b c).1 = d.getTime) ∧
    (∀ (a : Int) (b : Option Int), (d.setUTCMonth a b).1 = d.getTime) ∧
    (∀ (a : Int) (b : Option Int), (d.setUTCSeconds a b).1 = d.getTime) ∧
    ((d.toDate h).2).read (d.toDate h).1 = d.getTime ∧
    (∀ (t : Int) (ro : Nat), ro < h.cells.length →
      (d.toDate h).1 ≠ ro ∧
      (((d.toDate h).2).writeTime (d.toDate h).1 t).read ro = h.read ro) := by
  refine ⟨fun _ => rfl, fun _ _ _ => rfl, fun _ _ _ _ => rfl, fun _ => rfl, fun _ _ _ => rfl,
    fun _ _ => rfl, fun _ _ => rfl, fun _ => rfl, fun _ => rfl, fun _ _ _ => rfl,
    fun _ _ _ _ => rfl, fun _ => rfl, fun _ _ _ => rfl, fun _ _ => rfl, fun _ _ => rfl,
    ?_, ?_⟩
  · show (h.cells ++ [d.getTime]).getD h.cells.length 0 = d.getTime
    rw [List.getD_append_right h.cells [d.getTime] 0 h.cells.length (Nat.le_refl _),
      Nat.sub_self]
    rfl
  · intro t ro hro
    refine ⟨?_, ?_⟩
    · show h.cells.length ≠ ro
      omega
    · show ((h.cells ++ [d.getTime]).set h.cells.length t).getD ro 0 = h.cells.getD ro 0
      rw [getD_set_ne _ _ _ _ _ (by omega)]
      exact List.getD_append h.cells [d.getTime] 0 ro hro

/-- Claim C9, witness: a concrete readonly date over a concrete one-cell
heap — `setTime 0` reports the unchanged timestamp, the fresh copy holds the
same timestamp, and writing through the copy leaves the pre-existing cell 0
unchanged. -/
theorem readonlyDate_mutators_return_timestamp_toDate_fresh_witness :
    (ReadonlyDate.setTime { time := 42 } 0).1 = ReadonlyDate.getTime { time := 42 } ∧
    ((ReadonlyDate.toDate { time := 42 } { cells := [7] }).2).read
      (ReadonlyDate.toDate { time := 42 } { cells := [7] }).1 = 42 ∧
    (((ReadonlyDate.toDate { time := 42 } { cells := [7] }).2).writeTime
      (ReadonlyDate.toDate { time := 42 } { cells := [7] }).1 99).read 0 = 7 := by
  have hmain := readonlyDate_mutators_return_timestamp_toDate_fresh
    { time := 42 } { cells := [7] }
  refine ⟨hmain.1 0, hmain.2.2.2.2.2.2.2.2.2.2.2.2.2.2.2.1, ?_⟩
  exact (hmain.2.2.2.2.2.2.2.2.2.2.2.2.2.2.2.2 99 0 (by decide)).2

/-- Claim C10: the `ReadonlyDate` constructor, once a second argument is
present, throws a `TypeError` whenever the first argument is not a number,
and — for a numeric first argument — throws a plain `Error` naming the
argument count whenever more than seven arguments are supplied; both are
error kinds distinct from the engine's `InvalidIntervalError`. -/
theorem readonlyDateCtor_errors (a : DateArg) (rest : List DateArg) (hr : rest ≠ []) :
    ((∀ v : JsNum, a ≠ DateArg.num v) →
      readonlyDateCtor (a :: rest) = Except.error (CtorError.typeError
        ("Impossible case encountered: init value has type of '" ++ a.typeName ++
          ", but additional arguments were provided after the first"))) ∧
    (∀ v : JsNum, a = DateArg.num v → 7 < (a :: rest).length →
      readonlyDateCtor (a :: rest) = Except.error (CtorError.plainError
        ("Cannot instantiate new Date with " ++ toString (a :: rest).length ++
          " arguments"))) := by
  obtain ⟨b, rest2, rfl⟩ : ∃ b rest2, rest = b :: rest2 := by
    cases rest with
    | nil => exact absurd rfl hr
    | cons b rest2 => exact ⟨b, rest2, rfl⟩
  constructor
  · intro hnum
    cases a with
    | num v => exact absurd rfl (hnum v)
    | str s => rfl
    | dateObj t => rfl
  · intro v hv hlen
    subst hv
    show (if (DateArg.num v :: b :: rest2).length ≤ 7 then
        Except.ok (SuperCall.components (DateArg.num v :: b :: rest2))
      else Except.error (CtorError.plainError
        ("Cannot instantiate new Date with " ++ toString (DateArg.num v :: b :: rest2).length ++
          " arguments"))) = _
    rw [if_neg (by omega)]

/-- Claim C10, witness: a string first argument with a second argument
present throws the `TypeError`, and eight numeric arguments throw the
argument-count `Error`. -/
theorem readonlyDateCtor_errors_witness :
    readonlyDateCtor [DateArg.str "now", DateArg.num (JsNum.intVal 1)] =
      Except.error (CtorError.typeError
        ("Impossible case encountered: init value has type of 'string" ++
          ", but additional arguments were provided after the first")) ∧
    readonlyDateCtor [DateArg.num (JsNum.intVal 2000), DateArg.num (JsNum.intVal 1),
        DateArg.num (JsNum.intVal 1), DateArg.num (JsNum.intVal 0),
        DateArg.num (JsNum.intVal 0), DateArg.num (JsNum.intVal 0),
        DateArg.num (JsNum.intVal 0), DateArg.num (JsNum.intVal 0)] =
      Except.error (CtorError.plainError "Cannot instantiate new Date with 8 arguments") := by
  constructor
  · exact (readonlyDateCtor_errors (DateArg.str "now") [DateArg.num (JsNum.intVal 1)]
      (by decide)).1 (fun v => by simp)
  · exact (readonlyDateCtor_errors (DateArg.num (JsNum.intVal 2000))
      [DateArg.num (JsNum.intVal 1), DateArg.num (JsNum.intVal 1),
        DateArg.num (JsNum.intVal 0), DateArg.num (JsNum.intVal 0),
        DateArg.num (JsNum.intVal 0), DateArg.num (JsNum.intVal 0),
        DateArg.num (JsNum.intVal 0)] (by decide)).2 (JsNum.intVal 2000) rfl (by decide)

/-- Claim C6, witness: a state with two live registrations sharing callback 5
at different intervals — one notification round invokes callback 5 exactly
once, and flushing appends exactly that round. -/
theorem notifyRound_once_per_callback_witness :
    ((notifyRound
      { minMs := 1, autoNotify := true, now := 0, snapshot := 9,
        regs := [{ rid := 0, cb := 5, interval := some 500 },
          { rid := 1, cb := 5, interval := some 1000 }],
        nextRegId := 2, lastTick := 0, timer := some 500, log := [],
        pending := false }).map Prod.fst).count 5 = 1 := by
  have h := (notifyRound_once_per_callback
    { minMs := 1, autoNotify := true, now := 0, snapshot := 9,
      regs := [{ rid := 0, cb := 5, interval := some 500 },
        { rid := 1, cb := 5, interval := some 1000 }],
      nextRegId := 2, lastTick := 0, timer := some 500, log := [],
      pending := false } 5).1
  rw [h]
  decide
